import Mathlib

/-!
Verification of the `bri-b-dev.github.io` Docusaurus site against its
natural-language specification.

The development shallowly embeds the only non-declarative component of the
repository — `src/components/HomepageFeatures/index.tsx` — together with the
site configuration (`docusaurus.config.ts`) and the front matter of the blog
posts (`blog/`, `i18n/en/docusaurus-plugin-content-blog/`).  JSX element trees
become Lean structures whose fields mirror the attributes and children written
in the source; the configuration object becomes a Lean structure literal
parametrised by the build-time year (the source computes the footer copyright
from `new Date().getFullYear()`); each post's front-matter block becomes an
association list of its scalar fields.
-/

namespace BBDev

/-! ## `src/components/HomepageFeatures/index.tsx` — data model -/

/-- `FeatureItem` from `index.tsx`: `title`, `Svg` (the required svg module,
embedded by its resource path) and `description` (a JSX text fragment,
embedded as its text). -/
structure FeatureItem where
  title : String
  Svg : String
  description : String
deriving Repr, DecidableEq

/-- The `clsx` helper: joins class strings (the source only ever passes one
literal argument). -/
def clsx (classes : List String) : String :=
  String.intercalate " " classes

/-- The constant `FeatureList` from `index.tsx` (three entries, in source
order). -/
def FeatureList : List FeatureItem :=
  [ { title := "Was ich mache"
      Svg := "@site/static/img/undraw_docusaurus_mountain.svg"
      description := "Backend, Cloud, Data Platforms" },
    { title := "Woran ich glaube"
      Svg := "@site/static/img/undraw_docusaurus_mountain.svg"
      description := "Open Source first, Sicherheit, Skalierbarkeit, Teamarbeit" },
    { title := "Was ich suche"
      Svg := "@site/static/img/undraw_docusaurus_mountain.svg"
      description := "offen für neue Backend-/Cloud-Rollen" } ]

/-- The rendered `<Svg className={styles.featureSvg} role="img" />` element. -/
structure SvgEl where
  src : String
  className : String
  role : String
deriving Repr, DecidableEq

/-- The `<div className="text--center">` wrapper holding the icon. -/
structure IconDiv where
  className : String
  svg : SvgEl
deriving Repr, DecidableEq

/-- The `<Heading as="h3">{title}</Heading>` element. -/
structure HeadingEl where
  as : String
  text : String
deriving Repr, DecidableEq

/-- The `<div className="text--center padding-horiz--md">` wrapper holding the
heading and the description paragraph, in that order. -/
structure TextDiv where
  className : String
  heading : HeadingEl
  paragraph : String
deriving Repr, DecidableEq

/-- One rendered feature card: the outer `<div className={clsx('col col--4')}>`
with the icon block above the text block. -/
structure Card where
  className : String
  icon : IconDiv
  body : TextDiv
deriving Repr, DecidableEq

/-- The `Feature` renderer from `index.tsx`: maps one `FeatureItem` to its
card element tree. -/
def Feature (item : FeatureItem) : Card :=
  { className := clsx ["col col--4"]
    icon := { className := "text--center"
              svg := { src := item.Svg
                       className := "featureSvg"
                       role := "img" } }
    body := { className := "text--center padding-horiz--md"
              heading := { as := "h3", text := item.title }
              paragraph := item.description } }

/-- A card together with the React `key` attribute assigned by the composer. -/
structure KeyedCard where
  key : Nat
  card : Card
deriving Repr, DecidableEq

/-- The `<div className="row">` element. -/
structure RowDiv where
  className : String
  cards : List KeyedCard
deriving Repr, DecidableEq

/-- The `<div className="container">` element. -/
structure ContainerDiv where
  className : String
  row : RowDiv
deriving Repr, DecidableEq

/-- The `<section className={styles.features}>` element. -/
structure SectionEl where
  className : String
  container : ContainerDiv
deriving Repr, DecidableEq

/-- The map expression `list.map((props, idx) => <Feature key={idx} {...props} />)`
from `HomepageFeatures`, factored over the list it is applied to. -/
def featureCards (l : List FeatureItem) : List KeyedCard :=
  l.mapIdx fun idx props => { key := idx, card := Feature props }

/-- The `HomepageFeatures` component from `index.tsx`: the section, container
and row wrappers around one `Feature` card per entry of the closed-over
`FeatureList`. -/
def HomepageFeatures : SectionEl :=
  { className := "features"
    container := { className := "container"
                   row := { className := "row"
                            cards := featureCards FeatureList } } }

/-- A three-entry feature list titled "A", "B", "C", for the example scenario
of the specification. -/
def abcFeatureList : List FeatureItem :=
  [ { title := "A", Svg := "a.svg", description := "da" },
    { title := "B", Svg := "b.svg", description := "db" },
    { title := "C", Svg := "c.svg", description := "dc" } ]

/-! ## Grid semantics for the card width -/

/-- Modelled from the spec: the external framework's grid is a 12-column grid
(missing from `src/`; the spec states a card occupies "a fixed fraction of
the row width", one third for class `col--4`). -/
def gridColumns : Nat := 12

/-- Decimal digit value of a character, `none` for a non-digit. -/
def decDigit (c : Char) : Option Nat :=
  if c = '0' then some 0 else
  if c = '1' then some 1 else
  if c = '2' then some 2 else
  if c = '3' then some 3 else
  if c = '4' then some 4 else
  if c = '5' then some 5 else
  if c = '6' then some 6 else
  if c = '7' then some 7 else
  if c = '8' then some 8 else
  if c = '9' then some 9 else none

/-- Reads the remaining decimal digits after an accumulator. -/
def decNumber (acc : Nat) : List Char → Option Nat
  | [] => some acc
  | c :: cs => (decDigit c).bind fun d => decNumber (acc * 10 + d) cs

/-- Modelled from the spec: the number of grid columns a `col--N` class
marker assigns to a block (missing from `src/`: the grid CSS lives in the
external framework). Scans the class string for `col--` and parses the
number that follows. -/
def colUnitsChars : List Char → Option Nat
  | 'c' :: 'o' :: 'l' :: '-' :: '-' :: c :: rest =>
      (decDigit c).bind fun d => decNumber d rest
  | _ :: rest => colUnitsChars rest
  | [] => none

/-- Modelled from the spec: grid columns claimed by a class string. -/
def colUnits (className : String) : Option Nat :=
  colUnitsChars className.data

/-! ## Purity of the renderer and the composer (state-passing embedding)

The bodies of `Feature` and `HomepageFeatures` in `index.tsx` contain no
assignment, no mutation of `FeatureList`, no IO call and no fallible
operation, so their state-passing translation threads the ambient world
through unchanged and cannot fail. -/

/-- The ambient mutable world threaded through the state-passing embedding
(an abstract trace of effects; rendering never touches it). -/
structure World where
  events : List String
deriving Repr, DecidableEq

/-- State-passing embedding of the `Feature` renderer. -/
def FeatureRun (item : FeatureItem) (w : World) : Card × World :=
  (Feature item, w)

/-- State-passing embedding of the `HomepageFeatures` composer (no runtime
input: the list is closed over). -/
def HomepageFeaturesRun (w : World) : SectionEl × World :=
  (HomepageFeatures, w)

/-! ## Blog post front matter

Each post's front-matter block is embedded as the association list of its
scalar fields, verbatim from the Markdown sources.  The repository holds a
default-locale (German) content set under `blog/` and an English content set
under `i18n/en/docusaurus-plugin-content-blog/`; the source files whose
directory names are unknown are assigned to the content set matching the
language of their text (their German/English counterparts sit in the known
directories). -/

/-- A front-matter block: the scalar fields, in source order. -/
abbrev FrontMatter := List (String × String)

/-- `blog/2025-01-20-springboot-fileupload-azure.md` (German). -/
def fmSpringbootDe : FrontMatter :=
  [ ("slug", "springboot-fileupload-azure"),
    ("title", "Streaming File Uploads nach Azure Blob Storage mit Spring Boot"),
    ("authors", "brigitte"),
    ("tags", "[spring-boot, kotlin, java, azure, blob-storage, fileupload]"),
    ("date", "2025-01-20"),
    ("description", "Speicherschonende Verarbeitung großer Uploads direkt in Azure Storage – ohne Zwischenspeicherung im RAM.") ]

/-- `blog/2025-01-27-aks-node-selection.md` (German). -/
def fmAksNodeDe : FrontMatter :=
  [ ("slug", "aks-node-selection"),
    ("title", "AKS Node Selection: Physische Pools vs. Virtual Nodes"),
    ("authors", "brigitte"),
    ("tags", "[kubernetes, aks, azure, nodepool, virtual-node, scheduling]"),
    ("date", "2025-01-27"),
    ("description", "Strategien, um Workloads in AKS bevorzugt auf physischen User-Nodes laufen zu lassen – mit automatischem Fallback auf Virtual Nodes.") ]

/-- `blog/2025-02-17-field-filtering.md` (German). -/
def fmFieldFilteringDe : FrontMatter :=
  [ ("slug", "field-filtering-rest-jackson"),
    ("title", "Field-Filtering in REST-APIs mit Jackson & @ControllerAdvice"),
    ("authors", "brigitte"),
    ("tags", "[spring-boot, kotlin, java, rest, jackson, json]"),
    ("date", "2025-02-17"),
    ("description", "Dynamische Reduktion von Response-Feldern über Query-Parameter – elegante Lösung mit Mixins und MappingJacksonValue.") ]

/-- The German workload-identity post (unnamed source file; its text is
German, so it belongs to the default content set). -/
def fmWorkloadDe : FrontMatter :=
  [ ("slug", "workload-identity-lessons-learned"),
    ("title", "Workload Identity in AKS – Lessons Learned"),
    ("authors", "brigitte"),
    ("tags", "[kubernetes, azure, aks, security, identity, lessons-learned]"),
    ("date", "2024-11-10"),
    ("description", "Setup, Stolpersteine und Best Practices aus Projekten") ]

/-- The German Terraform-patterns post (unnamed source file; its text is
German, so it belongs to the default content set). -/
def fmTerraformDe : FrontMatter :=
  [ ("slug", "terraform-patterns-aks-azure"),
    ("title", "Terraform Patterns für AKS & Azure"),
    ("authors", "brigitte"),
    ("tags", "[terraform, aks, azure, rbac, network-policy, modules, cicd]"),
    ("date", "2025-02-03"),
    ("description", "Erfahrungen mit modularen Terraform-Setups für AKS – von Modul-Design über RBAC bis zu Network Policies und CI/CD.") ]

/-- `i18n/en/docusaurus-plugin-content-blog/2025-01-20-springboot-fileupload-azure.md`
(English). -/
def fmSpringbootEn : FrontMatter :=
  [ ("slug", "springboot-fileupload-azure"),
    ("title", "Streaming File Uploads to Azure Blob Storage with Spring Boot"),
    ("authors", "brigitte"),
    ("tags", "[spring-boot, kotlin, java, azure, blob-storage, fileupload]"),
    ("date", "2025-01-20"),
    ("description", "Memory-efficient processing of large uploads directly in Azure Storage—without temporary storage in RAM.") ]

/-- The English workload-identity post (unnamed source file; its text is
English, so it belongs to the English content set). -/
def fmWorkloadEn : FrontMatter :=
  [ ("slug", "workload-identity-lessons-learned"),
    ("title", "Workload Identity in AKS – Lessons Learned"),
    ("authors", "brigitte"),
    ("tags", "[kubernetes, azure, aks, security, identity, lessons-learned]"),
    ("date", "2024-11-10"),
    ("description", "Setup, pitfalls, and best practices from real projects") ]

/-- The English field-filtering post (unnamed source file; its text is
English, so it belongs to the English content set). -/
def fmFieldFilteringEn : FrontMatter :=
  [ ("slug", "field-filtering-rest-jackson"),
    ("title", "Field-Filtering in REST-APIs with Jackson & @ControllerAdvice"),
    ("authors", "brigitte"),
    ("tags", "[spring-boot, kotlin, java, rest, jackson, json]"),
    ("date", "2025-02-17"),
    ("description", "Dynamic reduction of response fields via query parameters – an elegant solution with mixins and MappingJacksonValue.") ]

/-- The English aks-node-selection post (second document of an unnamed source
file; its text is English, so it belongs to the English content set). -/
def fmAksNodeEn : FrontMatter :=
  [ ("slug", "aks-node-selection"),
    ("title", "AKS Node Selection: Physical Pools vs. Virtual Nodes"),
    ("authors", "brigitte"),
    ("tags", "[kubernetes, aks, azure, nodepool, virtual-node, scheduling]"),
    ("date", "2025-01-27"),
    ("description", "Strategies for running workloads in AKS preferentially on physical user nodes – with automatic fallback to virtual nodes.") ]

/-- The English Terraform-patterns post (second document staged in the
English content directory; its title and description open with a curly
quote in the source, kept verbatim). -/
def fmTerraformEn : FrontMatter :=
  [ ("slug", "terraform-patterns-aks-azure"),
    ("title", "“Terraform Patterns for AKS & Azure\""),
    ("authors", "brigitte"),
    ("tags", "[terraform, aks, azure, rbac, network-policy, modules, cicd]"),
    ("date", "2025-02-03"),
    ("description", "“Experiences with modular Terraform setups for AKS – from module design and RBAC to network policies and CI/CD.\"") ]

/-- The default-locale (German) blog content set. -/
def germanBlogPosts : List FrontMatter :=
  [fmWorkloadDe, fmSpringbootDe, fmAksNodeDe, fmTerraformDe, fmFieldFilteringDe]

/-- The English blog content set. -/
def englishBlogPosts : List FrontMatter :=
  [fmWorkloadEn, fmSpringbootEn, fmAksNodeEn, fmTerraformEn, fmFieldFilteringEn]

/-- The slug a front-matter block declares, if any. -/
def slugOf (fm : FrontMatter) : Option String :=
  List.lookup "slug" fm

/-- The localized post pairs: a German post and its English translation. -/
def localizedPairs : List (FrontMatter × FrontMatter) :=
  [ (fmSpringbootDe, fmSpringbootEn),
    (fmWorkloadDe, fmWorkloadEn),
    (fmAksNodeDe, fmAksNodeEn),
    (fmTerraformDe, fmTerraformEn),
    (fmFieldFilteringDe, fmFieldFilteringEn) ]

/-- The formalisation of claim C4 as stated: every post of either content set
has a counterpart with the same slug in the other content set. -/
def postsBothLocales : Prop :=
  (∀ fm ∈ germanBlogPosts, ∃ fm2 ∈ englishBlogPosts, slugOf fm2 = slugOf fm)
  ∧ (∀ fm ∈ englishBlogPosts, ∃ fm2 ∈ germanBlogPosts, slugOf fm2 = slugOf fm)

instance : Decidable postsBothLocales := by
  unfold postsBothLocales
  infer_instance

/-! ## `docusaurus.config.ts` -/

/-- The `i18n` block of the configuration. -/
structure I18nOptions where
  defaultLocale : String
  locales : List String
deriving Repr, DecidableEq

/-- The `feedOptions` block of the blog preset options. -/
structure FeedOptions where
  types : List String
  xslt : Bool
deriving Repr, DecidableEq

/-- The `blog` block of the classic preset options. -/
structure BlogOptions where
  showReadingTime : Bool
  feedOptions : FeedOptions
  editUrl : String
  onInlineTags : String
  onInlineAuthors : String
  onUntruncatedBlogPosts : String
deriving Repr, DecidableEq

/-- The `colorMode` block of the theme configuration. -/
structure ColorMode where
  defaultMode : String
  disableSwitch : Bool
  respectPrefersColorScheme : Bool
deriving Repr, DecidableEq

/-- One navbar item (`to` or `href`, label, position). -/
structure NavbarItem where
  toPath : Option String
  href : Option String
  label : String
  position : String
deriving Repr, DecidableEq

/-- The `navbar` block of the theme configuration. -/
structure NavbarConfig where
  title : String
  logoAlt : String
  logoSrc : String
  items : List NavbarItem
deriving Repr, DecidableEq

/-- One footer link (`label`, `to` or `href`). -/
structure FooterLinkItem where
  label : String
  toPath : Option String
  href : Option String
deriving Repr, DecidableEq

/-- One titled group of footer links. -/
structure FooterLinkGroup where
  title : String
  items : List FooterLinkItem
deriving Repr, DecidableEq

/-- The `footer` block of the theme configuration. -/
structure FooterConfig where
  style : String
  links : List FooterLinkGroup
  copyright : String
deriving Repr, DecidableEq

/-- The `prism` block of the theme configuration (themes embedded by name). -/
structure PrismConfig where
  theme : String
  darkTheme : String
  additionalLanguages : List String
deriving Repr, DecidableEq

/-- The `announcementBar` block of the theme configuration. -/
structure AnnouncementBar where
  id : String
  content : String
  isCloseable : Bool
deriving Repr, DecidableEq

/-- The `themeConfig` block of the configuration. -/
structure ThemeConfig where
  image : String
  colorMode : ColorMode
  navbar : NavbarConfig
  footer : FooterConfig
  prism : PrismConfig
  announcementBar : AnnouncementBar
deriving Repr, DecidableEq

/-- The site configuration object of `docusaurus.config.ts`. -/
structure SiteConfig where
  title : String
  tagline : String
  favicon : String
  futureV4 : Bool
  url : String
  baseUrl : String
  organizationName : String
  projectName : String
  trailingSlash : Bool
  onBrokenLinks : String
  onBrokenMarkdownLinks : String
  i18n : I18nOptions
  blog : BlogOptions
  themeConfig : ThemeConfig
deriving Repr, DecidableEq

/-- The configuration object built by evaluating `docusaurus.config.ts`.
The module reads the system clock once — `new Date().getFullYear()` in the
footer copyright template — so the embedding takes that year as its one
parameter; every other field is the literal written in the source. -/
def siteConfig (year : Nat) : SiteConfig :=
  { title := "Brigitte Böhm\x27s homepage"
    tagline := "Cloud & Data Platform Engineer"
    favicon := "img/favicon.svg"
    futureV4 := true
    url := "https://bri-b-dev.github.io"
    baseUrl := "/"
    organizationName := "bri-b-dev"
    projectName := "bri-b-dev.github.io"
    trailingSlash := false
    onBrokenLinks := "throw"
    onBrokenMarkdownLinks := "warn"
    i18n := { defaultLocale := "en", locales := ["en"] }
    blog := { showReadingTime := true
              feedOptions := { types := ["rss", "atom"], xslt := true }
              editUrl := "https://github.com/bri-b-dev/bri-b-dev.github.io/tree/main/packages/create-docusaurus/templates/shared/"
              onInlineTags := "warn"
              onInlineAuthors := "warn"
              onUntruncatedBlogPosts := "warn" }
    themeConfig :=
      { image := "img/docusaurus-social-card.jpg"
        colorMode := { defaultMode := "dark"
                       disableSwitch := false
                       respectPrefersColorScheme := true }
        navbar := { title := "Home"
                    logoAlt := "My Site Logo"
                    logoSrc := "img/logo.svg"
                    items :=
                      [ { toPath := some "/about", href := none, label := "About", position := "left" },
                        { toPath := some "/blog", href := none, label := "Blog", position := "left" },
                        { toPath := none, href := some "mailto:brigitte_boehm@outlook.de", label := "Kontakt", position := "right" },
                        { toPath := none, href := some "https://github.com/bri-b-dev", label := "GitHub", position := "right" } ] }
        footer :=
          { style := "dark"
            links :=
              [ { title := "Navigation"
                  items := [ { label := "About", toPath := some "/about", href := none },
                             { label := "Blog", toPath := some "/blog", href := none } ] },
                { title := "Kontakt"
                  items := [ { label := "E‑Mail", toPath := none, href := some "mailto:brigitte_boehm@outlook.de" },
                             { label := "LinkedIn", toPath := none, href := some "https://www.linkedin.com/in/brigitte-boehm-34b7a025/" },
                             { label := "GitHub", toPath := none, href := some "https://github.com/bri-b-dev" } ] } ]
            copyright := "© " ++ Nat.repr year ++ " Brigitte Böhm" }
        prism := { theme := "github"
                   darkTheme := "dracula"
                   additionalLanguages := ["java", "kotlin", "bash", "json", "yaml"] }
        announcementBar :=
          { id := "job-hint"
            content := "🚀 Offen für spannende Rollen in Backend & Cloud – <a href=\"mailto:brigitte.boehm@outlook.de\">Kontakt</a>"
            isCloseable := true } } }

/-- The severity with which the external framework reports a problem class. -/
inductive Severity where
  | fatal
  | warning
  | silent
deriving Repr, DecidableEq

/-- Modelled from the spec: how the external build framework interprets an
`onX` configuration string (missing from `src/`: the link checker is the
framework's). `"throw"` makes the build fail, `"warn"` emits a warning. -/
def reportSeverity (setting : String) : Severity :=
  if setting = "throw" then .fatal
  else if setting = "warn" then .warning
  else .silent

/-- The decimal character list computed by `Nat.toDigits 10`, described
through `Nat.digits`. -/
def natChars (n : Nat) : List Char :=
  if n = 0 then ['0'] else ((Nat.digits 10 n).map Nat.digitChar).reverse

/-! ## Helper lemmas -/

/-- `featureCards l` has one card per entry of `l`. -/
theorem featureCards_length (l : List FeatureItem) :
    (featureCards l).length = l.length := by
  simp [featureCards]

/-- The accumulator of `Nat.toDigitsCore` is appended to the result. -/
theorem toDigitsCore_acc_append (b : Nat) :
    ∀ (fuel n : Nat) (ds : List Char),
      Nat.toDigitsCore b fuel n ds = Nat.toDigitsCore b fuel n [] ++ ds := by
  intro fuel
  induction fuel with
  | zero => intro n ds; simp [Nat.toDigitsCore]
  | succ fuel ih =>
    intro n ds
    simp only [Nat.toDigitsCore]
    by_cases h : n / b = 0
    · simp [h]
    · simp only [h, if_false]
      rw [ih (n / b) (Nat.digitChar (n % b) :: ds), ih (n / b) [Nat.digitChar (n % b)]]
      simp

/-- With enough fuel, `Nat.toDigitsCore 10` produces `natChars`. -/
theorem toDigitsCore_eq_natChars :
    ∀ (fuel n : Nat), n < fuel → Nat.toDigitsCore 10 fuel n [] = natChars n := by
  intro fuel
  induction fuel with
  | zero => intro n h; exact absurd h (Nat.not_lt_zero n)
  | succ fuel ih =>
    intro n h
    simp only [Nat.toDigitsCore]
    by_cases h0 : n / 10 = 0
    · have hn10 : n < 10 := by omega
      have hmod : n % 10 = n := Nat.mod_eq_of_lt hn10
      simp only [h0, if_true, hmod]
      by_cases hn : n = 0
      · subst hn; rfl
      · unfold natChars
        rw [if_neg hn,
          Nat.digits_def' (by norm_num : (1 : Nat) < 10) (Nat.pos_of_ne_zero hn),
          h0, Nat.digits_zero]
        simp [hmod]
    · have hn0 : n ≠ 0 := by
        intro hn
        exact h0 (by simp [hn])
      have hlt : n / 10 < fuel := by
        have hdiv : n / 10 < n := Nat.div_lt_self (Nat.pos_of_ne_zero hn0) (by norm_num)
        omega
      simp only [h0, if_false]
      rw [toDigitsCore_acc_append, ih (n / 10) hlt]
      unfold natChars
      rw [if_neg h0, if_neg hn0,
        Nat.digits_def' (by norm_num : (1 : Nat) < 10) (Nat.pos_of_ne_zero hn0)]
      simp

/-- `Nat.digitChar` distinguishes decimal digits. -/
theorem digitChar_inj_fin :
    ∀ d e : Fin 10, Nat.digitChar d.val = Nat.digitChar e.val → d = e := by decide

/-- Mapping `Nat.digitChar` over lists of decimal digits is injective. -/
theorem map_digitChar_inj :
    ∀ (ds es : List Nat), (∀ d ∈ ds, d < 10) → (∀ e ∈ es, e < 10) →
      ds.map Nat.digitChar = es.map Nat.digitChar → ds = es := by
  intro ds
  induction ds with
  | nil =>
    intro es _ _ h
    cases es with
    | nil => rfl
    | cons e es => simp at h
  | cons d ds ih =>
    intro es hds hes h
    cases es with
    | nil => simp at h
    | cons e es =>
      simp only [List.map_cons, List.cons.injEq] at h
      have hd : d < 10 := hds d (by simp)
      have he : e < 10 := hes e (by simp)
      have hfin : (⟨d, hd⟩ : Fin 10) = ⟨e, he⟩ :=
        digitChar_inj_fin ⟨d, hd⟩ ⟨e, he⟩ h.1
      have hde : d = e := congrArg Fin.val hfin
      subst hde
      rw [ih es (fun x hx => hds x (by simp [hx])) (fun x hx => hes x (by simp [hx])) h.2]

/-- `natChars` is injective. -/
theorem natChars_inj (m n : Nat) (h : natChars m = natChars n) : m = n := by
  unfold natChars at h
  by_cases hm : m = 0 <;> by_cases hn : n = 0
  · rw [hm, hn]
  · exfalso
    rw [if_pos hm, if_neg hn] at h
    have h2 : (Nat.digits 10 n).map Nat.digitChar = ['0'] := by
      have h3 := congrArg List.reverse h
      simpa using h3.symm
    have hdig : Nat.digits 10 n = [0] :=
      map_digitChar_inj _ [0]
        (fun d hd => Nat.digits_lt_base (by norm_num) hd) (by simp)
        (by simpa using h2)
    have h4 := Nat.ofDigits_digits 10 n
    rw [hdig] at h4
    exact hn (by simpa [Nat.ofDigits] using h4.symm)
  · exfalso
    rw [if_neg hm, if_pos hn] at h
    have h2 : (Nat.digits 10 m).map Nat.digitChar = ['0'] := by
      have h3 := congrArg List.reverse h
      simpa using h3
    have hdig : Nat.digits 10 m = [0] :=
      map_digitChar_inj _ [0]
        (fun d hd => Nat.digits_lt_base (by norm_num) hd) (by simp)
        (by simpa using h2)
    have h4 := Nat.ofDigits_digits 10 m
    rw [hdig] at h4
    exact hm (by simpa [Nat.ofDigits] using h4.symm)
  · rw [if_neg hm, if_neg hn] at h
    have h2 := List.reverse_injective h
    have hdig := map_digitChar_inj _ _
      (fun d hd => Nat.digits_lt_base (by norm_num) hd)
      (fun d hd => Nat.digits_lt_base (by norm_num) hd) h2
    have h3 := congrArg (Nat.ofDigits 10) hdig
    rwa [Nat.ofDigits_digits, Nat.ofDigits_digits] at h3

/-- The decimal rendering of a natural number determines the number (stated
on the character data, which is what string concatenation acts on). -/
theorem natReprData_inj (m n : Nat) (h : (Nat.repr m).data = (Nat.repr n).data) :
    m = n := by
  have hdata : Nat.toDigits 10 m = Nat.toDigits 10 n := h
  have hm : Nat.toDigitsCore 10 (m + 1) m [] = natChars m :=
    toDigitsCore_eq_natChars (m + 1) m (Nat.lt_succ_self m)
  have hn : Nat.toDigitsCore 10 (n + 1) n [] = natChars n :=
    toDigitsCore_eq_natChars (n + 1) n (Nat.lt_succ_self n)
  exact natChars_inj m n ((hm.symm.trans hdata).trans hn)

/-! ## Claim theorems -/

/-- C1: rendering `HomepageFeatures` produces exactly one `Feature` card per
entry of the constant `FeatureList` (the rendered cards are precisely
`Feature` applied entrywise), and the total number of rendered cards equals
the length of `FeatureList`, which is 3. -/
theorem c1_one_card_per_entry :
    HomepageFeatures.container.row.cards.map KeyedCard.card = FeatureList.map Feature
    ∧ HomepageFeatures.container.row.cards.length = FeatureList.length
    ∧ FeatureList.length = 3 := by
  refine ⟨?_, ?_, rfl⟩ <;> decide

/-- C2: the rendered cards appear in the same order as the entries of the
list (the card at index `i` is `Feature` of the entry at index `i`, showing
that entry's title and description verbatim), and in the example scenario of
a list of 3 entries titled "A", "B", "C" the row holds exactly 3 cards whose
headings read "A", "B", "C" in that left-to-right order. -/
theorem c2_order_preserved :
    (∀ (l : List FeatureItem) (i : Nat) (h : i < l.length)
        (h2 : i < (featureCards l).length),
        ((featureCards l).get ⟨i, h2⟩).card = Feature (l.get ⟨i, h⟩)
        ∧ ((featureCards l).get ⟨i, h2⟩).card.body.heading.text = (l.get ⟨i, h⟩).title
        ∧ ((featureCards l).get ⟨i, h2⟩).card.body.paragraph = (l.get ⟨i, h⟩).description)
    ∧ (featureCards abcFeatureList).length = 3
    ∧ (featureCards abcFeatureList).map (fun kc => kc.card.body.heading.text)
        = ["A", "B", "C"] := by
  refine ⟨?_, by decide, by decide⟩
  intro l i h h2
  have hg : (featureCards l).get ⟨i, h2⟩
      = { key := i, card := Feature (l.get ⟨i, h⟩) } :=
    List.get_mapIdx l
      (fun idx props => ({ key := idx, card := Feature props } : KeyedCard)) i h
  exact ⟨by rw [hg], by rw [hg]; rfl, by rw [hg]; rfl⟩

/-- Witness for C2 at the concrete input `FeatureList`, index 0. -/
theorem c2_order_preserved_witness :
    (0 < FeatureList.length ∧ 0 < (featureCards FeatureList).length)
    ∧ ((featureCards FeatureList).get ⟨0, by decide⟩).card
        = Feature (FeatureList.get ⟨0, by decide⟩)
    ∧ ((featureCards FeatureList).get ⟨0, by decide⟩).card.body.heading.text
        = (FeatureList.get ⟨0, by decide⟩).title
    ∧ ((featureCards FeatureList).get ⟨0, by decide⟩).card.body.paragraph
        = (FeatureList.get ⟨0, by decide⟩).description :=
  ⟨⟨by decide, by decide⟩,
    c2_order_preserved.1 FeatureList 0 (by decide) (by decide)⟩

/-- C3: every `Feature` card is a centered block (both inner wrappers carry
`text--center`; icon, then heading, then paragraph, in the order of the
`Card` fields) whose class claims 4 of the 12 grid columns, i.e. one third
of the row width — matching the count of `FeatureList`: 3 items, each taking
`1 / 3` of the row. -/
theorem c3_card_layout (item : FeatureItem) :
    colUnits (Feature item).className = some 4
    ∧ ((4 : ℚ) / (gridColumns : ℚ) = 1 / 3 ∧ FeatureList.length = 3)
    ∧ (Feature item).icon.className = "text--center"
    ∧ (Feature item).body.className = "text--center padding-horiz--md"
    ∧ (Feature item).icon.svg.src = item.Svg
    ∧ (Feature item).body.heading.text = item.title
    ∧ (Feature item).body.paragraph = item.description := by
  refine ⟨?_, ⟨by norm_num [gridColumns], rfl⟩, rfl, rfl, rfl, rfl, rfl⟩
  show colUnits (clsx ["col col--4"]) = some 4
  decide

/-- C5: `Feature` and `HomepageFeatures` are pure — rendering leaves the
world (hence `FeatureList`) unchanged, always returns a value (the
embeddings are total functions into `Card × World`, resp.
`SectionEl × World`, not `Option`), and any two renders produce identical
output. -/
theorem c5_render_pure :
    (∀ w : World, (HomepageFeaturesRun w).2 = w)
    ∧ (∀ w₁ w₂ : World, (HomepageFeaturesRun w₁).1 = (HomepageFeaturesRun w₂).1)
    ∧ (∀ (item : FeatureItem) (w : World), (FeatureRun item w).2 = w)
    ∧ (∀ (item : FeatureItem) (w₁ w₂ : World),
        (FeatureRun item w₁).1 = (FeatureRun item w₂).1) :=
  ⟨fun _ => rfl, fun _ _ => rfl, fun _ _ => rfl, fun _ _ _ => rfl⟩

/-- C6: the composer assigns the positional key `i` to the card built from
the entry at index `i`: over any list the keys are exactly `0 .. n-1`
(`List.range n`), hence pairwise distinct, and for the constant
`FeatureList` the keys are `[0, 1, 2]`. -/
theorem c6_stable_positional_keys :
    (∀ l : List FeatureItem,
        (featureCards l).map KeyedCard.key = List.range l.length
        ∧ ((featureCards l).map KeyedCard.key).Nodup)
    ∧ HomepageFeatures.container.row.cards.map KeyedCard.key = [0, 1, 2] := by
  refine ⟨?_, by decide⟩
  intro l
  have hkeys : (featureCards l).map KeyedCard.key = List.range l.length := by
    simp only [featureCards, List.mapIdx_eq_enum_map, List.map_map]
    have hcomp : (KeyedCard.key ∘ Function.uncurry
        fun idx props => ({ key := idx, card := Feature props } : KeyedCard))
        = Prod.fst := by
      funext p
      cases p
      rfl
    rw [hcomp, List.enum_map_fst]
  exact ⟨hkeys, by rw [hkeys]; exact List.nodup_range _⟩

/-- C4 counterexample: the claim as stated — every blog post exists in both
locales and the i18n configuration covers both locales — is false of the
source, because the configured locale list of `docusaurus.config.ts` is
`["en"]` and does not contain `"de"` (the content side, `postsBothLocales`,
does hold). -/
theorem c4_counterexample :
    ¬ (postsBothLocales
       ∧ "en" ∈ (siteConfig 2025).i18n.locales
       ∧ "de" ∈ (siteConfig 2025).i18n.locales) :=
  fun h => absurd h.2.2 (by decide)

/-- C4 (amended): the blog content is fully localized — every post of either
content set has a counterpart with the same slug in the other content set
(five German posts, five English posts) — but the site's i18n configuration
declares the single locale `en` (which is also the default locale), so the
configuration does not cover a German locale. -/
theorem c4_localized_content_single_locale :
    (∀ fm ∈ germanBlogPosts, ∃ fm2 ∈ englishBlogPosts, slugOf fm2 = slugOf fm)
    ∧ (∀ fm ∈ englishBlogPosts, ∃ fm2 ∈ germanBlogPosts, slugOf fm2 = slugOf fm)
    ∧ germanBlogPosts.length = 5
    ∧ englishBlogPosts.length = 5
    ∧ (siteConfig 2025).i18n.locales = ["en"]
    ∧ (siteConfig 2025).i18n.defaultLocale = "en"
    ∧ "de" ∉ (siteConfig 2025).i18n.locales := by
  refine ⟨by decide, by decide, rfl, rfl, rfl, rfl, by decide⟩

/-- Witness for the amended C4 at the concrete German post `fmTerraformDe`. -/
theorem c4_localized_content_single_locale_witness :
    fmTerraformDe ∈ germanBlogPosts
    ∧ ∃ fm2 ∈ englishBlogPosts, slugOf fm2 = slugOf fmTerraformDe :=
  ⟨by decide, c4_localized_content_single_locale.1 fmTerraformDe (by decide)⟩

/-- C7: every blog post's front matter declares a slug, and within each
content set (default/German and English) the declared slugs are pairwise
distinct. -/
theorem c7_unique_slugs :
    (∀ fm ∈ germanBlogPosts ++ englishBlogPosts, (slugOf fm).isSome)
    ∧ (germanBlogPosts.map slugOf).Nodup
    ∧ (englishBlogPosts.map slugOf).Nodup :=
  ⟨by decide, by decide, by decide⟩

/-- Witness for C7 at the concrete post `fmWorkloadDe`. -/
theorem c7_unique_slugs_witness :
    fmWorkloadDe ∈ germanBlogPosts ++ englishBlogPosts
    ∧ (slugOf fmWorkloadDe).isSome :=
  ⟨by decide, c7_unique_slugs.1 fmWorkloadDe (by decide)⟩

/-- C8: every localized post pair (a German post and its English version)
declares the identical slug in both front-matter blocks (and the slug is
present), the German member lying in the default content set and the English
member in the English content set. -/
theorem c8_pair_slugs :
    ∀ p ∈ localizedPairs,
      p.1 ∈ germanBlogPosts ∧ p.2 ∈ englishBlogPosts
      ∧ (slugOf p.1).isSome ∧ slugOf p.1 = slugOf p.2 := by
  decide

/-- Witness for C8 at the concrete pair `(fmSpringbootDe, fmSpringbootEn)`. -/
theorem c8_pair_slugs_witness :
    (fmSpringbootDe, fmSpringbootEn) ∈ localizedPairs
    ∧ slugOf fmSpringbootDe = slugOf fmSpringbootEn :=
  ⟨by decide,
    (c8_pair_slugs (fmSpringbootDe, fmSpringbootEn) (by decide)).2.2.2⟩

/-- C9: the configuration makes a broken internal link fatal
(`onBrokenLinks := "throw"` reports with severity `fatal`), while broken
markdown links and inline author references are reported as warnings only
(`onBrokenMarkdownLinks` and `onInlineAuthors` are `"warn"`), for every
build-time year. -/
theorem c9_broken_link_severity (y : Nat) :
    reportSeverity (siteConfig y).onBrokenLinks = Severity.fatal
    ∧ reportSeverity (siteConfig y).onBrokenMarkdownLinks = Severity.warning
    ∧ reportSeverity (siteConfig y).blog.onInlineAuthors = Severity.warning :=
  ⟨rfl, rfl, rfl⟩

/-- C10: `siteConfig` is a function of the build-time year alone — two
evaluations in the same year yield equal configuration objects, evaluations
in different years yield different ones (the footer copyright embeds the
year), so the configuration is not a fixed constant across builds. -/
theorem c10_copyright_clock :
    (∀ y₁ y₂ : Nat, y₁ = y₂ → siteConfig y₁ = siteConfig y₂)
    ∧ (∀ y₁ y₂ : Nat, y₁ ≠ y₂ → siteConfig y₁ ≠ siteConfig y₂)
    ∧ ¬ (∀ y₁ y₂ : Nat, siteConfig y₁ = siteConfig y₂) := by
  have hne : ∀ y₁ y₂ : Nat, y₁ ≠ y₂ → siteConfig y₁ ≠ siteConfig y₂ := by
    intro y₁ y₂ hyne hc
    apply hyne
    have hcopy : "© " ++ Nat.repr y₁ ++ " Brigitte Böhm"
        = "© " ++ Nat.repr y₂ ++ " Brigitte Böhm" :=
      congrArg (fun c => c.themeConfig.footer.copyright) hc
    have hdata := congrArg String.data hcopy
    simp only [String.data_append] at hdata
    exact natReprData_inj y₁ y₂
      (List.append_cancel_left (List.append_cancel_right hdata))
  refine ⟨fun y₁ y₂ h => by rw [h], hne, ?_⟩
  intro hall
  exact hne 2024 2025 (by decide) (hall 2024 2025)

/-- Witness for C10 at the concrete years 2024 and 2025. -/
theorem c10_copyright_clock_witness :
    siteConfig 2025 = siteConfig 2025 ∧ siteConfig 2024 ≠ siteConfig 2025 :=
  ⟨c10_copyright_clock.1 2025 2025 rfl,
    c10_copyright_clock.2.1 2024 2025 (by decide)⟩

end BBDev
